import Mathlib

/-!
Shallow embedding of the News Webstory Generator (a small Streamlit + BytePlus
pipeline): request signing, summarizer output parsing, prompt sanitization and
truncation, infographic prompt construction, the form-submission pipeline with
its storage writes, story HTML assembly, storage-key construction, and the
slide-navigation state machine.

Python string primitives (strip, replace, split, slicing, containment) are
modelled on `List Char`; machine-word arithmetic in SHA-1 is modelled on `Nat`
with explicit reduction modulo 2^32.
-/

namespace Webstory

/-- ASCII whitespace stripped by Python `str.strip()` with no arguments
(the source only ever strips ASCII whitespace). -/
def pyIsSpace (c : Char) : Bool :=
  c == ' ' || c == '\t' || c == '\n' || c == '\r' || c == '\x0b' || c == '\x0c'

/-- Python `str.strip(chars)`: drop characters satisfying `p` from both ends. -/
def stripChars (p : Char → Bool) (l : List Char) : List Char :=
  ((l.dropWhile p).reverse.dropWhile p).reverse

/-- Python `str.strip()` (no argument): strip whitespace from both ends. -/
def pyStrip (l : List Char) : List Char := stripChars pyIsSpace l

/-- Python `str.strip(c)` for a single character `c`. -/
def stripChar (c : Char) (l : List Char) : List Char := stripChars (· == c) l

/-- The double-quote character. -/
def dq : Char := '"'

/-- The single-quote character. -/
def sq : Char := Char.ofNat 39

/-- Python `str.startswith(pat)` on character lists. -/
def leadsWith : List Char → List Char → Bool
  | [], _ => true
  | _ :: _, [] => false
  | a :: as, b :: bs => a == b && leadsWith as bs

/-- Python `pat in s` substring containment on character lists. -/
def containsSub (pat : List Char) : List Char → Bool
  | [] => leadsWith pat []
  | c :: cs => leadsWith pat (c :: cs) || containsSub pat cs

/-- Python `s.replace(pat, rep)`: replace leftmost non-overlapping occurrences,
scanning left to right and continuing after each replacement. `fuel` bounds the
number of scanning steps; `replaceAll` below supplies `fuel = l.length`, which
always suffices since every step consumes at least one input character. -/
def replaceAllF (pat rep : List Char) : Nat → List Char → List Char
  | _, [] => []
  | 0, l => l
  | fuel + 1, c :: cs =>
    if leadsWith pat (c :: cs) && !pat.isEmpty then
      rep ++ replaceAllF pat rep fuel (cs.drop (pat.length - 1))
    else
      c :: replaceAllF pat rep fuel cs

/-- Python `s.replace(pat, rep)` for a non-empty pattern. -/
def replaceAll (pat rep l : List Char) : List Char := replaceAllF pat rep l.length l

/-- Python `s.split(pat, 1)[1]`: the remainder after the first occurrence of
`pat` (callers in the source guard this with a containment check first). -/
def splitAfter (pat : List Char) : List Char → List Char
  | [] => []
  | c :: cs => if leadsWith pat (c :: cs) then cs.drop (pat.length - 1) else splitAfter pat cs

/-- Python `s.split('\n')`. -/
def splitLinesNl : List Char → List (List Char)
  | [] => [[]]
  | c :: cs =>
    if c == '\n' then [] :: splitLinesNl cs
    else
      match splitLinesNl cs with
      | [] => [[c]]
      | l :: ls => (c :: l) :: ls

/-! ## WebstoryGenerator.generate_webstory_image: prompt sanitization and truncation
(src/webstory_generator.py lines 58-79). -/

/-- The literal `"**Visual prompt:**"` label stripped by the sanitizer. -/
def vpMarker : List Char := "**Visual prompt:**".data

/-- The markdown bold marker `"**"`. -/
def starStar : List Char := "**".data

/-- The markdown emphasis marker `"*"`. -/
def singleStar : List Char := "*".data

/-- Prompt sanitization from `generate_webstory_image`: strip a leading
`**Visual prompt:**` label if present (split on the first occurrence, keep the
remainder, strip whitespace), remove all `**` then all `*`, strip whitespace,
then strip leading/trailing double quotes and then single quotes. -/
def sanitize (text : String) : String :=
  ⟨stripChar sq (stripChar dq (pyStrip (replaceAll singleStar [] (replaceAll starStar []
    (if containsSub vpMarker text.data then pyStrip (splitAfter vpMarker text.data)
     else text.data)))))⟩

/-- One extra round of end-stripping: whitespace, then double quotes, then
single quotes.  Running `sanitize` a second time reduces to exactly this
(see the theorems below). -/
def restripQuotes (s : String) : String := ⟨stripChar sq (stripChar dq (pyStrip s.data))⟩

/-- The truncation step of `generate_webstory_image`: `if len(prompt) > 200:
prompt = prompt[:200]`. -/
def truncatePrompt (prompt : String) : String :=
  if prompt.length > 200 then ⟨prompt.data.take 200⟩ else prompt

/-! ## ArticleSummarizer.summarize_article: line parsing of the LLM response
(src/summarizer.py lines 70-91). -/

/-- The `"Title:"` marker tested with Python `in`. -/
def titleMarker : List Char := "Title:".data

/-- The literal `"**Title:"` removed from a title line. -/
def boldTitleMarker : List Char := "**Title:".data

/-- Cleaning applied to a (stripped) line recognised as a title line:
`line.replace('**Title:', '').replace('**', '').strip().strip('"')`. -/
def cleanTitleLine (l : List Char) : List Char :=
  stripChar dq (pyStrip (replaceAll starStar [] (replaceAll boldTitleMarker [] l)))

/-- Cleaning applied to a (stripped) line recognised as a bullet line:
`line.lstrip('-').strip().replace('**', '').strip()`. -/
def cleanBulletLine (l : List Char) : List Char :=
  pyStrip (replaceAll starStar [] (pyStrip (l.dropWhile (· == '-'))))

/-- The summarizer's scanning loop over response lines: each line is stripped;
a line containing `Title:` overwrites the title accumulator; otherwise a line
starting with `-` is cleaned and appended to the bullet accumulator; all other
lines are ignored. -/
def scanSummary : List (List Char) → List Char → List (List Char) → List Char × List (List Char)
  | [], title, bullets => (title, bullets)
  | line :: rest, title, bullets =>
    let l := pyStrip line
    if containsSub titleMarker l then scanSummary rest (cleanTitleLine l) bullets
    else if leadsWith ['-'] l then scanSummary rest title (bullets ++ [cleanBulletLine l])
    else scanSummary rest title bullets

/-- `ArticleSummarizer.summarize_article`'s parsing of the LLM response text
into `(title, bullet_points)`. -/
def summarizeParse (text : String) : String × List String :=
  let (t, bs) := scanSummary (splitLinesNl text.data) [] []
  (⟨t⟩, bs.map (⟨·⟩))

/-- Stated from the claim's words, for comparison with the source parser:
the title is taken from the FIRST-scanned line containing a `Title:` marker. -/
def claimedTitle : List (List Char) → List Char
  | [] => []
  | line :: rest =>
    let l := pyStrip line
    if containsSub titleMarker l then cleanTitleLine l else claimedTitle rest

/-- Stated from the claim's words, for comparison with the source parser:
the bullets are EXACTLY the lines starting with a leading dash, cleaned,
in order. -/
def claimedBullets (lines : List (List Char)) : List (List Char) :=
  lines.filterMap fun line =>
    let l := pyStrip line
    if leadsWith ['-'] l then some (cleanBulletLine l) else none

/-- The parser described by claim C4's words (first `Title:` line wins; every
dash line is a bullet). -/
def claimedParse (text : String) : String × List String :=
  let lines := splitLinesNl text.data
  (⟨claimedTitle lines⟩, (claimedBullets lines).map (⟨·⟩))

/-- Title extraction as the source actually behaves: a left fold, so the
LAST-scanned line containing a `Title:` marker wins. -/
def amendedTitle (lines : List (List Char)) : List Char :=
  lines.foldl
    (fun t line =>
      let l := pyStrip line
      if containsSub titleMarker l then cleanTitleLine l else t)
    []

/-- Bullet extraction as the source actually behaves: dash lines are bullets
only when they do not also contain a `Title:` marker (the title branch is
checked first). -/
def amendedBullets (lines : List (List Char)) : List (List Char) :=
  lines.filterMap fun line =>
    let l := pyStrip line
    if containsSub titleMarker l then none
    else if leadsWith ['-'] l then some (cleanBulletLine l) else none

/-- The amended description of the summarizer's parser. -/
def amendedParse (text : String) : String × List String :=
  let lines := splitLinesNl text.data
  (⟨amendedTitle lines⟩, (amendedBullets lines).map (⟨·⟩))

/-! ## Slide navigation (src/webstory_app.py).
`nextSlideJs`/`prevSlideJs` embed the `nextSlide`/`prevSlide` functions of the
script emitted by `generate_webstory_html` (lines 218-228); `applyNav` embeds
the Streamlit `prev_button`/`next_button` handlers (lines 105-119) in the
initialised-state case (`current_image_index` is initialised to 0 before any
button callback can run, so the unset-state branches are unreachable from the
initial state). -/

/-- `nextSlide()` from the emitted script: `nextIndex = currentSlide + 1;
if (nextIndex >= totalSlides) nextIndex = 0`. -/
def nextSlideJs (total c : Int) : Int := if c + 1 ≥ total then 0 else c + 1

/-- `prevSlide()` from the emitted script: `prevIndex = currentSlide - 1;
if (prevIndex < 0) prevIndex = totalSlides - 1`. -/
def prevSlideJs (total c : Int) : Int := if c - 1 < 0 then total - 1 else c - 1

/-- A navigation action: the ▶ (next) or ◀ (prev) button. -/
inductive NavAct where
  | nextA : NavAct
  | prevA : NavAct

/-- The Streamlit button handlers on an initialised `current_image_index`:
prev: `index <= 0 → len - 1` else `index - 1`;
next: `index >= len - 1 → 0` else `index + 1`. -/
def applyNav (total c : Int) : NavAct → Int
  | NavAct.nextA => if c ≥ total - 1 then 0 else c + 1
  | NavAct.prevA => if c ≤ 0 then total - 1 else c - 1

/-- Run a sequence of button actions from the initial index 0. -/
def runNav (total : Int) (acts : List NavAct) : Int := acts.foldl (applyNav total) 0

/-! ## Request signing (src/webstory_generator.py lines 24-30 and
src/image_generator.py lines 26-40; both classes define the same
`_generate_signature`).  SHA-1 is modelled on `Nat` with explicit reduction
modulo 2^32; bytes are `Nat` values below 256. -/

/-- Reduce modulo 2^32 (32-bit machine word). -/
def w32 (n : Nat) : Nat := n % 4294967296

/-- 32-bit bitwise complement of a word below 2^32. -/
def not32 (n : Nat) : Nat := 4294967295 - n

/-- Rotate a 32-bit word left by `b` bits (for `0 < b < 32`, `n < 2^32`). -/
def rotl (b n : Nat) : Nat := w32 (n * 2 ^ b) + n / 2 ^ (32 - b)

/-- Big-endian 8-byte encoding of a (64-bit) length value. -/
def be8 (n : Nat) : List Nat :=
  [n / 2 ^ 56 % 256, n / 2 ^ 48 % 256, n / 2 ^ 40 % 256, n / 2 ^ 32 % 256,
   n / 2 ^ 24 % 256, n / 2 ^ 16 % 256, n / 2 ^ 8 % 256, n % 256]

/-- SHA-1 message padding: append `0x80`, zero-pad to 56 mod 64 bytes, then the
message bit length as 8 big-endian bytes. -/
def padMsg (msg : List Nat) : List Nat :=
  let k := (119 - msg.length % 64) % 64
  msg ++ 128 :: List.replicate k 0 ++ be8 (8 * msg.length)

/-- Combine 4 bytes big-endian into 32-bit words (a 64-byte block gives 16). -/
def toWords : List Nat → List Nat
  | b0 :: b1 :: b2 :: b3 :: rest =>
    (b0 * 2 ^ 24 + b1 * 2 ^ 16 + b2 * 2 ^ 8 + b3) :: toWords rest
  | _ => []

/-- Extend the 16 block words to the 80-word SHA-1 message schedule.  The list
is kept reversed (head = most recent word); each step prepends
`rotl1 (w[i-3] xor w[i-8] xor w[i-14] xor w[i-16])`. -/
def extendW : Nat → List Nat → List Nat
  | 0, rws => rws
  | fuel + 1, rws =>
    extendW fuel (rotl 1 (rws.getD 2 0 ^^^ rws.getD 7 0 ^^^ rws.getD 13 0 ^^^ rws.getD 15 0) :: rws)

/-- The 80-word message schedule of one 64-byte block. -/
def schedule (block : List Nat) : List Nat := (extendW 64 (toWords block).reverse).reverse

/-- One SHA-1 round: state is `(a, b, c, d, e, i)` and `wv` is word `i` of the
schedule. -/
def sha1Round (st : Nat × Nat × Nat × Nat × Nat × Nat) (wv : Nat) :
    Nat × Nat × Nat × Nat × Nat × Nat :=
  let (a, b, c, d, e, i) := st
  let f :=
    if i < 20 then (b &&& c) ||| (not32 b &&& d)
    else if i < 40 then b ^^^ c ^^^ d
    else if i < 60 then (b &&& c) ||| (b &&& d) ||| (c &&& d)
    else b ^^^ c ^^^ d
  let k :=
    if i < 20 then 0x5A827999
    else if i < 40 then 0x6ED9EBA1
    else if i < 60 then 0x8F1BBCDC
    else 0xCA62C1D6
  (w32 (rotl 5 a + f + e + k + wv), a, rotl 30 b, c, d, i + 1)

/-- SHA-1 compression of one 64-byte block into the running hash state. -/
def sha1Compress (h : Nat × Nat × Nat × Nat × Nat) (block : List Nat) :
    Nat × Nat × Nat × Nat × Nat :=
  let (h0, h1, h2, h3, h4) := h
  let (a, b, c, d, e, _) := (schedule block).foldl sha1Round (h0, h1, h2, h3, h4, 0)
  (w32 (h0 + a), w32 (h1 + b), w32 (h2 + c), w32 (h3 + d), w32 (h4 + e))

/-- Process the padded message in 64-byte blocks; `fuel` is the block count. -/
def sha1Blocks : Nat → (Nat × Nat × Nat × Nat × Nat) → List Nat → Nat × Nat × Nat × Nat × Nat
  | 0, h, _ => h
  | fuel + 1, h, bytes => sha1Blocks fuel (sha1Compress h (bytes.take 64)) (bytes.drop 64)

/-- The five-word SHA-1 digest of a byte list. -/
def sha1Digest (msg : List Nat) : Nat × Nat × Nat × Nat × Nat :=
  let padded := padMsg msg
  sha1Blocks (padded.length / 64) (0x67452301, 0xEFCDAB89, 0x98BADCFE, 0x10325476, 0xC3D2E1F0) padded

/-- Lowercase hexadecimal digit for a value below 16. -/
def hexDigit (n : Nat) : Char := if n < 10 then Char.ofNat (48 + n) else Char.ofNat (87 + n)

/-- Eight lowercase hex characters of a 32-bit word. -/
def hex8 (n : Nat) : List Char :=
  [hexDigit (n / 2 ^ 28 % 16), hexDigit (n / 2 ^ 24 % 16), hexDigit (n / 2 ^ 20 % 16),
   hexDigit (n / 2 ^ 16 % 16), hexDigit (n / 2 ^ 12 % 16), hexDigit (n / 2 ^ 8 % 16),
   hexDigit (n / 2 ^ 4 % 16), hexDigit (n % 16)]

/-- Python `hashlib.sha1(bytes).hexdigest()`: the 40-character lowercase hex
digest. -/
def sha1hex (msg : List Nat) : String :=
  let (h0, h1, h2, h3, h4) := sha1Digest msg
  ⟨hex8 h0 ++ hex8 h1 ++ hex8 h2 ++ hex8 h3 ++ hex8 h4⟩

/-- UTF-8 encoding of one character (Python `str.encode('utf-8')` per code
point). -/
def utf8Char (c : Char) : List Nat :=
  let n := c.toNat
  if n < 0x80 then [n]
  else if n < 0x800 then [0xC0 + n / 64, 0x80 + n % 64]
  else if n < 0x10000 then [0xE0 + n / 4096, 0x80 + n / 64 % 64, 0x80 + n % 64]
  else [0xF0 + n / 262144, 0x80 + n / 4096 % 64, 0x80 + n / 64 % 64, 0x80 + n % 64]

/-- UTF-8 encoding of a string as a byte list. -/
def utf8 (s : String) : List Nat := s.data.flatMap utf8Char

/-- Code-point lexicographic `<` on character lists (Python string `<`). -/
def charListLt : List Char → List Char → Bool
  | _, [] => false
  | [], _ :: _ => true
  | a :: as, b :: bs => a < b || (a == b && charListLt as bs)

/-- Python string `<`: code-point lexicographic comparison. -/
def strLt (x y : String) : Bool := charListLt x.data y.data

/-- Insert a string into a lexicographically sorted list of strings. -/
def insertSorted (x : String) : List String → List String
  | [] => [x]
  | y :: ys => if strLt x y then x :: y :: ys else y :: insertSorted x ys

/-- Python `list.sort()` on strings: lexicographic ascending sort. -/
def sortStrings (l : List String) : List String := l.foldr insertSorted []

/-- `_generate_signature(nonce, timestamp)` with `api_secret = secret`:
collect `[str(nonce), secret, str(timestamp)]`, sort lexicographically,
concatenate with no separator, SHA-1 over the UTF-8 bytes, lowercase hex
digest (`hexdigest()` is already lowercase, so the final `.lower()` is the
identity). -/
def generate_signature (secret : String) (nonce timestamp : Nat) : String :=
  sha1hex (utf8 (String.join (sortStrings [toString nonce, secret, toString timestamp])))

/-! ## InfographicGenerator.generate_infographic (src/image_generator.py
lines 54-99) — the image generator actually used by the app pipeline. -/

/-- Decoded JSON response of the text-to-image API (the fields the source
reads: `code`, `message`, `data.image_urls`). -/
structure ApiResponse where
  code : Nat
  message : String
  image_urls : List String
deriving DecidableEq

/-- The fixed template text before the quoted article title in
`generate_infographic`'s request prompt. -/
def infographicPromptHead : String :=
  "Create a poster with minimalistic background which captures the essense of text from article title and use the text from article title to write in poster "

/-- The fixed template text after the quoted article title. -/
def infographicPromptTail : String := " Style: Subtle and poignant."

/-- The request prompt of `generate_infographic`: the f-string inserts the
input text verbatim, wrapped in double quotes, into the fixed poster
template. -/
def buildInfographicPrompt (article_title : String) : String :=
  infographicPromptHead ++ "\"" ++ article_title ++ "\"" ++ infographicPromptTail

/-- `generate_infographic`: POST the templated prompt (modelled by the `post`
oracle standing for the HTTP transport), fail unless `code == 10000` and
`image_urls` is non-empty, return the first URL; every failure raised inside
the `try` is re-wrapped with `"Failed to generate infographic: "`. -/
def generate_infographic (post : String → Except String ApiResponse)
    (article_title : String) : Except String String :=
  match post (buildInfographicPrompt article_title) with
  | Except.error e => Except.error ("Failed to generate infographic: " ++ e)
  | Except.ok r =>
    if r.code == 10000 && !r.image_urls.isEmpty then Except.ok (r.image_urls.headD "")
    else Except.error ("Failed to generate infographic: API error: " ++ r.message)

/-! ## save_webstory_html key and URL construction (src/webstory_app.py
lines 250-274). -/

/-- Decimal digit character. -/
def digitChar (d : Nat) : Char := Char.ofNat (48 + d)

/-- Two-digit zero-padded decimal rendering (strftime `%m`, `%d`, `%H`, `%M`,
`%S` for in-range values). -/
def pad2 (n : Nat) : List Char := [digitChar (n / 10 % 10), digitChar (n % 10)]

/-- Four-digit zero-padded decimal rendering (strftime `%Y` for years
1000-9999, the range of `datetime.now()`). -/
def pad4 (n : Nat) : List Char :=
  [digitChar (n / 1000 % 10), digitChar (n / 100 % 10), digitChar (n / 10 % 10), digitChar (n % 10)]

/-- `datetime.now().strftime("%Y%m%d%H%M%S")` for a given clock reading. -/
def formatTimestamp (y mo d h mi s : Nat) : String :=
  ⟨pad4 y ++ pad2 mo ++ pad2 d ++ pad2 h ++ pad2 mi ++ pad2 s⟩

/-- `''.join(c if c.isalnum() else '_' for c in title)[:50]` (alphanumerics
per the ASCII classifier; Python's `isalnum` agrees on ASCII titles). -/
def cleanTitle50 (title : String) : String :=
  ⟨(title.data.map fun c => if c.isAlphanum then c else '_').take 50⟩

/-- `object_key = f"{prefix}/webstories/{timestamp}_{clean_title}.html"`. -/
def makeObjectKey (objectKeyPre ts title : String) : String :=
  objectKeyPre ++ "/webstories/" ++ ts ++ "_" ++ cleanTitle50 title ++ ".html"

/-- `storage_url = f"https://{bucket_name}.{endpoint}/{object_key}"`. -/
def storageUrl (bucket endpoint key : String) : String :=
  "https://" ++ bucket ++ "." ++ endpoint ++ "/" ++ key

/-! ## generate_webstory_html (src/webstory_app.py lines 131-246).
The template markup is reproduced; the incidental indentation whitespace of
the Python triple-quoted literals is not (no claim depends on it).  Note that
this function is defined at line 139 of the script, after the submission
block that calls it at line 90 — see `runPipeline` below. -/

/-- One slide record of `st.session_state.webstory_images`:
`{"type": ..., "text": ..., "image_url": ...}`. -/
structure SlideRec where
  kind : String
  text : String
  image_url : String
deriving DecidableEq

/-- Document head of the story HTML, with the title interpolated. -/
def webstoryHtmlHead (title : String) : String :=
  "<!DOCTYPE html>\n<html lang=\"en\">\n<head>\n<meta charset=\"UTF-8\">\n<meta name=\"viewport\" content=\"width=device-width, initial-scale=1.0\">\n<title>" ++
  title ++
  " - Webstory</title>\n<style>\nbody, html \x7bmargin: 0; padding: 0; height: 100%; overflow: hidden;\x7d\n.webstory-container \x7bheight: 100vh; position: relative;\x7d\n.webstory-slide \x7bheight: 100%; width: 100%; position: absolute; top: 0; left: 0; display: none; flex-direction: column; justify-content: flex-end; background-size: cover; background-position: center;\x7d\n.webstory-slide.active \x7bdisplay: flex;\x7d\n.webstory-text \x7bpadding: 20px; background: rgba(0,0,0,0.7); color: white; font-family: Arial, sans-serif;\x7d\n.webstory-nav \x7bposition: absolute; top: 0; height: 100%; width: 50%; z-index: 10;\x7d\n.webstory-nav.prev \x7bleft: 0;\x7d\n.webstory-nav.next \x7bright: 0;\x7d\n.progress-bar \x7bposition: absolute; top: 0; left: 0; right: 0; height: 4px; display: flex;\x7d\n.progress-segment \x7bheight: 100%; flex: 1; margin: 0 2px; background: rgba(255,255,255,0.3);\x7d\n.progress-segment.active \x7bbackground: white;\x7d\n</style>\n</head>\n<body>\n<div class=\"webstory-container\">\n<div class=\"progress-bar\">\n"

/-- The progress segments: one div per image, ids `progress-0`, `progress-1`, … -/
def progressSegments (n : Nat) : String :=
  String.join ((List.range n).map fun i =>
    "<div class=\"progress-segment\" id=\"progress-" ++ toString i ++ "\"></div>")

/-- One slide div: `active` class exactly on index 0, id `slide-{i}`, the image
URL as background, the slide text in an `<h2>`. -/
def slideDiv (i : Nat) (img : SlideRec) : String :=
  let activeClass := if i == 0 then "active" else ""
  "<div class=\"webstory-slide " ++ activeClass ++ "\" id=\"slide-" ++ toString i ++
  "\" style=\"background-image: url(\x27" ++ img.image_url ++ "\x27);\">\n<div class=\"webstory-text\">\n<h2>" ++
  img.text ++ "</h2>\n</div>\n</div>\n"

/-- Navigation overlays plus the embedded script (whose `nextSlide`/`prevSlide`
are modelled by `nextSlideJs`/`prevSlideJs` above). -/
def webstoryHtmlFoot : String :=
  "<div class=\"webstory-nav prev\" onclick=\"prevSlide()\"></div>\n<div class=\"webstory-nav next\" onclick=\"nextSlide()\"></div>\n</div>\n<script>\nlet currentSlide = 0;\nconst slides = document.querySelectorAll(\x27.webstory-slide\x27);\nconst progressSegments = document.querySelectorAll(\x27.progress-segment\x27);\nconst totalSlides = slides.length;\nprogressSegments[0].classList.add(\x27active\x27);\nfunction showSlide(index) \x7b\nslides.forEach(slide => slide.classList.remove(\x27active\x27));\nprogressSegments.forEach(segment => segment.classList.remove(\x27active\x27));\nslides[index].classList.add(\x27active\x27);\nprogressSegments[index].classList.add(\x27active\x27);\ncurrentSlide = index;\n\x7d\nfunction nextSlide() \x7b\nlet nextIndex = currentSlide + 1;\nif (nextIndex >= totalSlides) nextIndex = 0;\nshowSlide(nextIndex);\n\x7d\nfunction prevSlide() \x7b\nlet prevIndex = currentSlide - 1;\nif (prevIndex < 0) prevIndex = totalSlides - 1;\nshowSlide(prevIndex);\n\x7d\nsetInterval(nextSlide, 5000);\n</script>\n</body>\n</html>\n"

/-- `generate_webstory_html(title, images)`: head, progress bar, the slide
divs in input order (index 0 active), then navigation and script. -/
def generate_webstory_html (title : String) (images : List SlideRec) : String :=
  webstoryHtmlHead title ++ progressSegments images.length ++ "</div>" ++
  String.join (images.enum.map fun p => slideDiv p.1 p.2) ++ webstoryHtmlFoot

/-! ## The form-submission pipeline (src/webstory_app.py lines 40-96). -/

/-- The bullet-point collection of the form: each raw text area is stripped
and appended only when non-empty (`if bullet.strip(): bullet_points.append(bullet.strip())`). -/
def collectBullets : List String → List String
  | [] => []
  | b :: rest =>
    if (pyStrip b.data).isEmpty then collectBullets rest
    else ⟨pyStrip b.data⟩ :: collectBullets rest

/-- One planned slide: its `type` tag, its source text, and the storage name
passed to `save_image`. -/
structure SpecItem where
  kind : String
  text : String
  name : String
deriving DecidableEq

/-- The bullet loop's planned slides: `type "bullet"`, storage name
`bullet_{i}_{article_title}`. -/
def bulletSpecs (title : String) : Nat → List String → List SpecItem
  | _, [] => []
  | i, b :: bs =>
    ⟨"bullet", b, "bullet_" ++ toString i ++ "_" ++ title⟩ :: bulletSpecs title (i + 1) bs

/-- All planned slides of a run: the title slide (`type "title"`, storage name
`title_{article_title}`) followed by the bullet slides in input order. -/
def slideSpecs (title : String) (bullets : List String) : List SpecItem :=
  ⟨"title", title, "title_" ++ title⟩ :: bulletSpecs title 0 bullets

/-- The per-slide loop: generate the image, save it, append the slide record
to `webstory_images`; the first failure raises out of the loop, keeping the
records and image writes of earlier slides.  Returns the accumulated slide
records, the image writes `(name, source url)` performed, and the error of the
failing step if any. -/
def runSlides (genImage : String → Except String String)
    (saveImage : String → String → Except String String) :
    List SpecItem → List SlideRec × List (String × String) × Option String
  | [] => ([], [], none)
  | s :: rest =>
    match genImage s.text with
    | Except.error e => ([], [], some e)
    | Except.ok url =>
      match saveImage url s.name with
      | Except.error e => ([], [], some e)
      | Except.ok surl =>
        ((⟨s.kind, s.text, surl⟩ : SlideRec) :: (runSlides genImage saveImage rest).1,
         (s.name, url) :: (runSlides genImage saveImage rest).2.1,
         (runSlides genImage saveImage rest).2.2)

/-- Storage configuration of the app's `StorageManager` (bucket, endpoint and
object-key prefix read from the environment). -/
structure StorageCfg where
  objectKeyPre : String
  bucket : String
  endpoint : String
deriving DecidableEq

/-- Observable outcome of one form submission: the session slide records, the
image writes, the story document (the `webstory_html` variable of line 90),
the public URL stored in `webstory_html_url`, the story-document storage
writes `(key, html)` that `save_webstory_html` would perform, and the error
shown by `st.error`.  In the source the document, URL and story-write fields
are never populated: see `runPipeline`. -/
structure PipelineOutcome where
  webstory_images : List SlideRec
  imageWrites : List (String × String)
  documentHtml : Option String
  publicUrl : Option String
  storyWrites : List (String × String)
  errorMsg : Option String
deriving DecidableEq

set_option linter.unusedVariables false in
/-- The form-submission handler (webstory_app.py lines 59-96): validate title
and bullets, run the per-slide loop, and surface any failure inside the `try`
as `"Error generating webstory: "` plus the stage error.  When every slide
succeeds, line 90 calls `generate_webstory_html` — but in the Streamlit
script that function and `save_webstory_html` are defined only further down
(lines 139 and 240), after the submission block, and the script executes
top-to-bottom on each rerun: the call raises
`NameError: name 'generate_webstory_html' is not defined`, which the same
`except` catches and reports.  So no run reaches the assembly/persistence
steps; `putObject`, `cfg` and `ts` model the storage capability that
`save_webstory_html` would use on the unreachable line 91 (hence unused). -/
def runPipeline (genImage : String → Except String String)
    (saveImage : String → String → Except String String)
    (putObject : String → String → Except String Unit)
    (cfg : StorageCfg) (ts : String) (title : String) (raws : List String) : PipelineOutcome :=
  if title = "" then ⟨[], [], none, none, [], some "Please enter an article title"⟩
  else if (collectBullets raws).isEmpty then
    ⟨[], [], none, none, [], some "Please enter at least one bullet point"⟩
  else
    let r := runSlides genImage saveImage (slideSpecs title (collectBullets raws))
    match r.2.2 with
    | some e => ⟨r.1, r.2.1, none, none, [], some ("Error generating webstory: " ++ e)⟩
    | none =>
      ⟨r.1, r.2.1, none, none, [],
       some "Error generating webstory: name \x27generate_webstory_html\x27 is not defined"⟩

/-! ## Concrete oracles used by the witnesses. -/

/-- An image generator that always succeeds. -/
def witGenOk : String → Except String String := fun t => Except.ok ("img_" ++ t)

/-- An image-storage save that always succeeds. -/
def witSaveOk : String → String → Except String String := fun _ n => Except.ok ("s3_" ++ n)

/-- A story-document put that always succeeds. -/
def witPutOk : String → String → Except String Unit := fun _ _ => Except.ok ()

/-- A concrete storage configuration. -/
def witCfg : StorageCfg := ⟨"infographics", "news-bucket", "tos.example.com"⟩

/-- A synthesis transport that fails exactly on the templated prompt for the
bullet `"b"` and succeeds elsewhere. -/
def witPostFail : String → Except String ApiResponse := fun p =>
  if p = buildInfographicPrompt "b" then Except.error "boom"
  else Except.ok ⟨10000, "", ["u"]⟩

/-! ## Sanity checks of the embedding against reference values
(digests computed with Python's hashlib). -/

set_option maxRecDepth 100000 in
theorem sha1hex_known_answer : sha1hex (utf8 "abc") = "a9993e364706816aba3e25717850c26c9cd0d89d" := by
  decide

set_option maxRecDepth 100000 in
theorem generate_signature_known_answer :
    generate_signature "secret" 1 2 = "60b20184852a62b975febcb6fbd7d475071e817a" := by
  decide

/-! ## Claim C2: signing. -/

/-- Claim C2: the signature is the lowercase hex SHA-1 digest of the UTF-8
bytes of the separator-free concatenation of the lexicographically sorted
string triple, so two (nonce, timestamp) pairs with the same secret produce
equal signatures whenever their sorted string triples are equal. -/
theorem signature_sort_invariant (secret : String) (n t n2 t2 : Nat)
    (h : sortStrings [toString n, secret, toString t] =
      sortStrings [toString n2, secret, toString t2]) :
    generate_signature secret n t = generate_signature secret n2 t2 := by
  unfold generate_signature
  rw [h]

/-- Witness for C2 at secret `"s"`, `(n, t) = (12, 3)` and `(n2, t2) = (3, 12)`. -/
theorem signature_sort_invariant_witness :
    sortStrings [toString 12, "s", toString 3] = sortStrings [toString 3, "s", toString 12] ∧
    generate_signature "s" 12 3 = generate_signature "s" 3 12 :=
  ⟨by decide, signature_sort_invariant "s" 12 3 3 12 (by decide)⟩

/-! ## Claim C5: prompt truncation. -/

/-- Claim C5: the truncation step of image synthesis cuts any prompt longer
than 200 characters to exactly its first 200 characters, and leaves any prompt
of at most 200 characters unchanged. -/
theorem truncatePrompt_spec (s : String) :
    (s.length > 200 → truncatePrompt s = ⟨s.data.take 200⟩ ∧ (truncatePrompt s).length = 200) ∧
    (s.length ≤ 200 → truncatePrompt s = s) := by
  constructor
  · intro h
    refine ⟨by rw [truncatePrompt, if_pos h], ?_⟩
    rw [truncatePrompt, if_pos h]
    show (s.data.take 200).length = 200
    rw [List.length_take]
    have : 200 ≤ s.data.length := le_of_lt h
    omega
  · intro h
    rw [truncatePrompt, if_neg (by omega)]

set_option maxRecDepth 10000 in
/-- Witness for C5 at a 201-character prompt and at the prompt `"ab"`. -/
theorem truncatePrompt_spec_witness :
    (truncatePrompt ⟨List.replicate 201 'a'⟩ = ⟨(List.replicate 201 'a').take 200⟩ ∧
      (truncatePrompt ⟨List.replicate 201 'a'⟩).length = 200) ∧
    truncatePrompt "ab" = "ab" :=
  ⟨(truncatePrompt_spec ⟨List.replicate 201 'a'⟩).1 (by decide),
   (truncatePrompt_spec "ab").2 (by decide)⟩

/-! ## Claims C7 and C8: the navigation state machine. -/

theorem nextSlideJs_eq_mod {n c : Int} (h0 : 0 ≤ c) (h1 : c < n) :
    nextSlideJs n c = (c + 1) % n := by
  unfold nextSlideJs
  by_cases h : c + 1 ≥ n
  · have he : c + 1 = n := by omega
    rw [if_pos h, he, Int.emod_self]
  · rw [if_neg h, Int.emod_eq_of_lt (by omega) (by omega)]

theorem prevSlideJs_eq_mod {n c : Int} (h0 : 0 ≤ c) (h1 : c < n) :
    prevSlideJs n c = (c - 1 + n) % n := by
  unfold prevSlideJs
  by_cases h : c - 1 < 0
  · have hc : c = 0 := by omega
    subst hc
    rw [if_pos h, Int.emod_eq_of_lt (by omega) (by omega)]
    omega
  · rw [if_neg h]
    have he : c - 1 + n = c - 1 + n * 1 := by ring
    rw [he, Int.add_mul_emod_self_left, Int.emod_eq_of_lt (by omega) (by omega)]

theorem nextSlideJs_iterate {n : Int} (hn : 1 ≤ n) :
    ∀ (k : Nat) (c : Int), 0 ≤ c → c < n → (nextSlideJs n)^[k] c = (c + k) % n := by
  intro k
  induction k with
  | zero =>
    intro c h0 h1
    simpa using (Int.emod_eq_of_lt h0 h1).symm
  | succ k ih =>
    intro c h0 h1
    rw [Function.iterate_succ_apply, nextSlideJs_eq_mod h0 h1]
    have hnn : n ≠ 0 := by omega
    rw [ih _ (Int.emod_nonneg _ hnn) (Int.emod_lt_of_pos _ (by omega))]
    rw [Int.emod_add_emod]
    congr 1
    push_cast
    ring

/-- Claim C7: over `N ≥ 1` slides, applying `nextSlide` `N` times from index 0
returns to index 0, applying `prevSlide` once from index 0 yields `N - 1`, and
on every in-range index the two transitions are exactly
`(c + 1) mod N` and `(c - 1 + N) mod N` (wraparound, no terminal state). -/
theorem nav_wraparound (n : Int) (hn : 1 ≤ n) :
    (nextSlideJs n)^[n.toNat] 0 = 0 ∧ prevSlideJs n 0 = n - 1 ∧
    ∀ c : Int, 0 ≤ c → c < n →
      nextSlideJs n c = (c + 1) % n ∧ prevSlideJs n c = (c - 1 + n) % n := by
  refine ⟨?_, ?_, fun c h0 h1 => ⟨nextSlideJs_eq_mod h0 h1, prevSlideJs_eq_mod h0 h1⟩⟩
  · rw [nextSlideJs_iterate hn n.toNat 0 le_rfl (by omega)]
    rw [Int.toNat_of_nonneg (by omega)]
    simp [Int.emod_self]
  · unfold prevSlideJs
    rw [if_pos (by omega)]

/-- Witness for C7 at `N = 3`. -/
theorem nav_wraparound_witness :
    (nextSlideJs 3)^[(3 : Int).toNat] 0 = 0 ∧ prevSlideJs 3 0 = 3 - 1 :=
  ⟨(nav_wraparound 3 (by decide)).1, (nav_wraparound 3 (by decide)).2.1⟩

theorem applyNav_bound {n c : Int} (hn : 1 ≤ n) (h0 : 0 ≤ c) (h1 : c ≤ n - 1) (a : NavAct) :
    0 ≤ applyNav n c a ∧ applyNav n c a ≤ n - 1 := by
  cases a <;> simp only [applyNav] <;> split <;> omega

theorem foldl_applyNav_bound {n : Int} (hn : 1 ≤ n) :
    ∀ (acts : List NavAct) (c : Int), 0 ≤ c → c ≤ n - 1 →
      0 ≤ acts.foldl (applyNav n) c ∧ acts.foldl (applyNav n) c ≤ n - 1 := by
  intro acts
  induction acts with
  | nil => intro c h0 h1; exact ⟨h0, h1⟩
  | cons a rest ih =>
    intro c h0 h1
    have h := applyNav_bound hn h0 h1 a
    exact ih _ h.1 h.2

/-- Claim C8: for `N ≥ 1` slides and every sequence of Next/Prev button
actions applied from the initial index 0, the current index stays an integer
in `[0, N-1]` (the state changes only through the two button handlers, which
is what `runNav` folds over). -/
theorem nav_state_invariant (n : Int) (hn : 1 ≤ n) (acts : List NavAct) :
    0 ≤ runNav n acts ∧ runNav n acts ≤ n - 1 :=
  foldl_applyNav_bound hn acts 0 le_rfl (by omega)

/-- Witness for C8 at `N = 2` and the action sequence next, next, prev. -/
theorem nav_state_invariant_witness :
    0 ≤ runNav 2 [NavAct.nextA, NavAct.nextA, NavAct.prevA] ∧
      runNav 2 [NavAct.nextA, NavAct.nextA, NavAct.prevA] ≤ 2 - 1 :=
  nav_state_invariant 2 (by decide) [NavAct.nextA, NavAct.nextA, NavAct.prevA]

/-! ## Claim C9: storage key and public URL. -/

/-- Claim C9: the story's storage key is
`{prefix}/webstories/{14-digit YYYYMMDDHHMMSS timestamp}_{sanitized title}.html`,
where the sanitized title replaces every non-alphanumeric character with an
underscore and is truncated to at most 50 characters, and the public URL is
`https://{bucket}.{endpoint}/{key}`. -/
theorem storage_key_spec (objectKeyPre title bucket endpoint : String) (y mo d h mi s : Nat) :
    makeObjectKey objectKeyPre (formatTimestamp y mo d h mi s) title =
      objectKeyPre ++ "/webstories/" ++ formatTimestamp y mo d h mi s ++ "_" ++
        cleanTitle50 title ++ ".html" ∧
    (formatTimestamp y mo d h mi s).length = 14 ∧
    (cleanTitle50 title).length ≤ 50 ∧
    cleanTitle50 title = ⟨(title.data.take 50).map fun c => if c.isAlphanum then c else '_'⟩ ∧
    ((cleanTitle50 title).data.all fun c => c.isAlphanum || c == '_') = true ∧
    storageUrl bucket endpoint (makeObjectKey objectKeyPre (formatTimestamp y mo d h mi s) title) =
      "https://" ++ bucket ++ "." ++ endpoint ++ "/" ++
        makeObjectKey objectKeyPre (formatTimestamp y mo d h mi s) title := by
  refine ⟨rfl, ?_, ?_, ?_, ?_, rfl⟩
  · show (pad4 y ++ pad2 mo ++ pad2 d ++ pad2 h ++ pad2 mi ++ pad2 s).length = 14
    simp [pad4, pad2]
  · show ((title.data.map fun c => if c.isAlphanum then c else '_').take 50).length ≤ 50
    exact List.length_take_le 50 _
  · show String.mk ((title.data.map fun c => if c.isAlphanum then c else '_').take 50) = _
    rw [List.map_take]
  · rw [List.all_eq_true]
    intro c hc
    have hc' := List.mem_of_mem_take hc
    obtain ⟨a, _, rfl⟩ := List.mem_map.mp hc'
    by_cases ha : a.isAlphanum
    · simp [ha]
    · simp [ha]

/-! ## Claim C10: the infographic request prompt. -/

/-- Claim C10: `generate_infographic` builds its synthesis request prompt by
inserting the input text verbatim, wrapped in double quotes, into the fixed
poster template, applies no sanitization (asterisk counts are preserved) and
no truncation (the length is the input length plus the fixed template
length), and the only transport call is on exactly that templated prompt. -/
theorem infographic_prompt_verbatim (t : String) (post : String → Except String ApiResponse) :
    (buildInfographicPrompt t).data =
      infographicPromptHead.data ++ dq :: (t.data ++ dq :: infographicPromptTail.data) ∧
    (buildInfographicPrompt t).length =
      t.length + (infographicPromptHead.length + infographicPromptTail.length + 2) ∧
    (buildInfographicPrompt t).data.count '*' = t.data.count '*' ∧
    generate_infographic post t =
      generate_infographic (fun _ => post (buildInfographicPrompt t)) t := by
  have hq : ("\"" : String).data = [dq] := rfl
  have hdata : (buildInfographicPrompt t).data =
      infographicPromptHead.data ++ dq :: (t.data ++ dq :: infographicPromptTail.data) := by
    show (infographicPromptHead ++ "\"" ++ t ++ "\"" ++ infographicPromptTail).data = _
    rw [String.data_append, String.data_append, String.data_append, String.data_append, hq]
    simp only [List.append_assoc, List.cons_append, List.singleton_append, List.nil_append]
  refine ⟨hdata, ?_, ?_, rfl⟩
  · show (buildInfographicPrompt t).data.length = _
    rw [hdata]
    simp only [List.length_append, List.length_cons]
    have e1 : infographicPromptHead.length = infographicPromptHead.data.length := rfl
    have e2 : infographicPromptTail.length = infographicPromptTail.data.length := rfl
    have e3 : t.length = t.data.length := rfl
    omega
  · rw [hdata]
    have h1 : infographicPromptHead.data.count '*' = 0 := by decide
    have h2 : infographicPromptTail.data.count '*' = 0 := by decide
    simp [List.count_append, List.count_cons, h1, h2, dq]

/-! ## Claim C4: the summarizer's line parser. -/

theorem scanSummary_eq (lines : List (List Char)) :
    ∀ (title : List Char) (bullets : List (List Char)),
      scanSummary lines title bullets =
        (lines.foldl
          (fun t line =>
            let l := pyStrip line
            if containsSub titleMarker l then cleanTitleLine l else t)
          title,
         bullets ++ amendedBullets lines) := by
  induction lines with
  | nil => intro t bs; simp [scanSummary, amendedBullets]
  | cons line rest ih =>
    intro t bs
    by_cases h1 : containsSub titleMarker (pyStrip line)
    · simp only [scanSummary, amendedBullets, List.filterMap_cons, List.foldl_cons, h1,
        if_true, if_pos]
      rw [ih]
      simp [amendedBullets, h1]
    · by_cases h2 : leadsWith ['-'] (pyStrip line)
      · simp only [scanSummary, amendedBullets, List.filterMap_cons, List.foldl_cons]
        rw [if_neg (by simp [h1]), if_pos (by simp [h2]), ih]
        simp [amendedBullets, h1, h2]
      · simp only [scanSummary, amendedBullets, List.filterMap_cons, List.foldl_cons]
        rw [if_neg (by simp [h1]), if_neg (by simp [h2]), ih]
        simp [amendedBullets, h1, h2]

/-- Claim C4 counterexample: on the response
`"Title: A\n- Title: B\n- c"` the source parser returns title `"- Title: B"`
(the last-scanned line containing `Title:`, which is also a dash line) and
bullets `["c"]`, while the claimed parser (first `Title:` line wins, every
dash line is a bullet) returns title `"Title: A"` and bullets
`["Title: B", "c"]`. -/
theorem summarize_parse_claim_false :
    summarizeParse "Title: A\n- Title: B\n- c" ≠ claimedParse "Title: A\n- Title: B\n- c" := by
  decide

/-- Claim C4 (amended): the title equals the content of the LAST-scanned line
containing a `Title:` marker, cleaned (empty if no such line exists), and the
bullets are exactly the lines that start with a leading dash AND do not
contain a `Title:` marker, cleaned, in their original order; all other lines
are ignored. -/
theorem summarize_parse_amended (text : String) : summarizeParse text = amendedParse text := by
  unfold summarizeParse amendedParse amendedTitle
  rw [scanSummary_eq]
  simp

/-! ## Claim C6: sanitization idempotence. -/

theorem leadsWith_head_mem {p : Char} {ps l : List Char}
    (h : leadsWith (p :: ps) l = true) : p ∈ l := by
  cases l with
  | nil => simp [leadsWith] at h
  | cons c cs =>
    simp only [leadsWith, Bool.and_eq_true, beq_iff_eq] at h
    exact h.1 ▸ List.mem_cons_self c cs

theorem containsSub_head_mem {p : Char} {ps l : List Char}
    (h : containsSub (p :: ps) l = true) : p ∈ l := by
  induction l with
  | nil => simp [containsSub, leadsWith] at h
  | cons c cs ih =>
    simp only [containsSub, Bool.or_eq_true] at h
    rcases h with h | h
    · exact leadsWith_head_mem h
    · exact List.mem_cons_of_mem c (ih h)

theorem replaceAllF_not_head_mem {p : Char} {ps rep : List Char} :
    ∀ (fuel : Nat) (l : List Char), p ∉ l → replaceAllF (p :: ps) rep fuel l = l := by
  intro fuel
  induction fuel with
  | zero => intro l _; cases l <;> rfl
  | succ fuel ih =>
    intro l hl
    cases l with
    | nil => rfl
    | cons c cs =>
      have hpc : (p == c) = false :=
        beq_eq_false_iff_ne.mpr fun he => hl (he ▸ List.mem_cons_self c cs)
      have hlw : leadsWith (p :: ps) (c :: cs) = false := by
        show (p == c && leadsWith ps cs) = false
        rw [hpc, Bool.false_and]
      simp only [replaceAllF, hlw, Bool.false_and, Bool.false_eq_true, if_false]
      rw [ih cs fun hm => hl (List.mem_cons_of_mem c hm)]

theorem replaceAll_not_head_mem {p : Char} {ps rep : List Char} {l : List Char}
    (hl : p ∉ l) : replaceAll (p :: ps) rep l = l :=
  replaceAllF_not_head_mem l.length l hl

theorem star_not_mem_replaceAllF :
    ∀ (fuel : Nat) (l : List Char), l.length ≤ fuel → '*' ∉ replaceAllF ['*'] [] fuel l := by
  intro fuel
  induction fuel with
  | zero =>
    intro l hl
    have h0 : l = [] := List.length_eq_zero.mp (Nat.le_zero.mp hl)
    subst h0
    simp [replaceAllF]
  | succ fuel ih =>
    intro l hl
    cases l with
    | nil => simp [replaceAllF]
    | cons c cs =>
      simp only [List.length_cons] at hl
      by_cases hc : c = '*'
      · subst hc
        have hlw : leadsWith ['*'] ('*' :: cs) = true := rfl
        have hrec := ih cs (by omega)
        simpa [replaceAllF, hlw] using hrec
      · have hlw : leadsWith ['*'] (c :: cs) = false := by
          show ('*' == c && leadsWith [] cs) = false
          have hb : ('*' == c) = false := beq_eq_false_iff_ne.mpr fun he => hc he.symm
          rw [hb, Bool.false_and]
        simp only [replaceAllF, hlw, Bool.false_and, Bool.false_eq_true, if_false,
          List.mem_cons, not_or]
        exact ⟨fun he => hc he.symm, ih cs (by omega)⟩

theorem mem_of_mem_dropWhileP {p : Char → Bool} {x : Char} :
    ∀ {l : List Char}, x ∈ l.dropWhile p → x ∈ l := by
  intro l
  induction l with
  | nil => intro h; exact h
  | cons c cs ih =>
    intro h
    by_cases hc : p c
    · rw [List.dropWhile_cons_of_pos hc] at h
      exact List.mem_cons_of_mem c (ih h)
    · rw [List.dropWhile_cons_of_neg hc] at h
      exact h

theorem mem_of_mem_stripChars {p : Char → Bool} {x : Char} {l : List Char}
    (h : x ∈ stripChars p l) : x ∈ l := by
  unfold stripChars at h
  rw [List.mem_reverse] at h
  have h2 := mem_of_mem_dropWhileP h
  rw [List.mem_reverse] at h2
  exact mem_of_mem_dropWhileP h2

theorem star_not_mem_stripped (z : List Char) :
    '*' ∉ stripChar sq (stripChar dq (pyStrip (replaceAll singleStar [] z))) := by
  intro hmem
  have h1 : '*' ∈ stripChar dq (pyStrip (replaceAll singleStar [] z)) :=
    mem_of_mem_stripChars hmem
  have h2 : '*' ∈ pyStrip (replaceAll singleStar [] z) := mem_of_mem_stripChars h1
  have h3 : '*' ∈ replaceAll singleStar [] z := mem_of_mem_stripChars h2
  rw [show singleStar = ['*'] from rfl] at h3
  exact star_not_mem_replaceAllF _ _ le_rfl h3

theorem star_not_mem_sanitize (x : String) : '*' ∉ (sanitize x).data := by
  rw [show sanitize x = ⟨stripChar sq (stripChar dq (pyStrip (replaceAll singleStar []
      (replaceAll starStar []
        (if containsSub vpMarker x.data then pyStrip (splitAfter vpMarker x.data)
         else x.data)))))⟩ from rfl]
  exact star_not_mem_stripped _

theorem sanitize_of_no_star {y : String} (h : '*' ∉ y.data) : sanitize y = restripQuotes y := by
  have hvp : containsSub vpMarker y.data = false := by
    cases hc : containsSub vpMarker y.data with
    | false => rfl
    | true =>
      have : vpMarker = '*' :: "*Visual prompt:**".data := rfl
      rw [this] at hc
      exact absurd (containsSub_head_mem hc) h
  have hss : replaceAll starStar [] y.data = y.data := by
    have : starStar = '*' :: "*".data := rfl
    rw [this]
    exact replaceAll_not_head_mem h
  have hs : replaceAll singleStar [] y.data = y.data := by
    have : singleStar = '*' :: ([] : List Char) := rfl
    rw [this]
    exact replaceAll_not_head_mem h
  unfold sanitize restripQuotes
  rw [hvp]
  simp only [Bool.false_eq_true, if_false]
  rw [hss, hs]

/-- Claim C6 counterexample: sanitization is not idempotent.  On the input
`"a "` surrounded by double quotes, one pass yields `a` followed by a space
(the quote strip exposes trailing whitespace), while a second pass also
removes that space. -/
theorem sanitize_not_idempotent :
    sanitize (sanitize "\"a \"") ≠ sanitize "\"a \"" := by
  decide

/-- Claim C6 (amended): a second sanitization pass is exactly one extra round
of end-stripping (whitespace, then double quotes, then single quotes) applied
to the single-pass output — the label split and markdown removal are no-ops
the second time — so sanitization is idempotent precisely on inputs whose
single-pass output is unchanged by that re-strip, and not in general. -/
theorem sanitize_twice (x : String) :
    sanitize (sanitize x) = restripQuotes (sanitize x) :=
  sanitize_of_no_star (star_not_mem_sanitize x)

/-! ## Claims C1 and C3: the form-submission pipeline. -/

theorem runSlides_ok (genImage : String → Except String String)
    (saveImage : String → String → Except String String) :
    ∀ specs : List SpecItem,
      (runSlides genImage saveImage specs).2.2 = none →
      (runSlides genImage saveImage specs).1.map (fun r => (r.kind, r.text)) =
        specs.map fun s => (s.kind, s.text) := by
  intro specs
  induction specs with
  | nil => intro _; rfl
  | cons s rest ih =>
    intro h
    cases hg : genImage s.text with
    | error e =>
      exfalso
      simp only [runSlides, hg] at h
      exact Option.some_ne_none e h
    | ok url =>
      cases hs : saveImage url s.name with
      | error e =>
        exfalso
        simp only [runSlides, hg, hs] at h
        exact Option.some_ne_none e h
      | ok surl =>
        simp only [runSlides, hg, hs] at h ⊢
        simp only [List.map_cons]
        rw [ih h]

theorem bulletSpecs_map (title : String) :
    ∀ (i : Nat) (bs : List String),
      (bulletSpecs title i bs).map (fun s => (s.kind, s.text)) =
        bs.map fun b => ("bullet", b) := by
  intro i bs
  induction bs generalizing i with
  | nil => rfl
  | cons b rest ih => simp [bulletSpecs, ih]

theorem slideSpecs_map (title : String) (bs : List String) :
    (slideSpecs title bs).map (fun s => (s.kind, s.text)) =
      ("title", title) :: bs.map fun b => ("bullet", b) := by
  simp [slideSpecs, bulletSpecs_map]

theorem collectBullets_length (raws : List String) :
    (collectBullets raws).length = raws.countP fun b => !(pyStrip b.data).isEmpty := by
  induction raws with
  | nil => rfl
  | cons b rest ih =>
    rw [List.countP_cons, collectBullets]
    cases hb : (pyStrip b.data).isEmpty with
    | true =>
      rw [if_pos (rfl : true = true), if_neg (by decide : ¬((!true) = true)), Nat.add_zero]
      exact ih
    | false =>
      rw [if_neg (by decide : ¬(false = true)), List.length_cons,
        if_pos (by decide : (!false) = true)]
      exact congrArg (· + 1) ih

/-- Claim C3 (code bug): the slide loop does accumulate the slides in the
claimed order — with title `"T"`, bullet inputs `["b1", " ", "b2"]` (one
whitespace-only, yielding no slide) and every synthesis and image save
succeeding, `webstory_images` is exactly
`[title, b1, b2]` — and yet a "successful pipeline run" is unreachable in the
source: line 90 calls `generate_webstory_html` before the script has defined
it (line 139), so this very run ends in the error branch with the `NameError`
surfaced, no story document, no public URL and no story-document write. -/
theorem pipeline_name_error_on_success :
    (runPipeline witGenOk witSaveOk witPutOk witCfg "20250101120000" "T"
        ["b1", " ", "b2"]).webstory_images.map (fun r => (r.kind, r.text)) =
      [("title", "T"), ("bullet", "b1"), ("bullet", "b2")] ∧
    (runPipeline witGenOk witSaveOk witPutOk witCfg "20250101120000" "T"
        ["b1", " ", "b2"]).errorMsg =
      some "Error generating webstory: name \x27generate_webstory_html\x27 is not defined" ∧
    (runPipeline witGenOk witSaveOk witPutOk witCfg "20250101120000" "T"
        ["b1", " ", "b2"]).documentHtml = none ∧
    (runPipeline witGenOk witSaveOk witPutOk witCfg "20250101120000" "T"
        ["b1", " ", "b2"]).publicUrl = none ∧
    (runPipeline witGenOk witSaveOk witPutOk witCfg "20250101120000" "T"
        ["b1", " ", "b2"]).storyWrites = [] := by
  decide

theorem bulletSpecs_append (title : String) :
    ∀ (i : Nat) (xs ys : List String),
      bulletSpecs title i (xs ++ ys) =
        bulletSpecs title i xs ++ bulletSpecs title (i + xs.length) ys := by
  intro i xs
  induction xs generalizing i with
  | nil => intro ys; simp [bulletSpecs]
  | cons b rest ih =>
    intro ys
    show (⟨"bullet", b, "bullet_" ++ toString i ++ "_" ++ title⟩ : SpecItem) ::
        bulletSpecs title (i + 1) (rest ++ ys) = _
    rw [ih (i + 1) ys]
    show _ = (⟨"bullet", b, "bullet_" ++ toString i ++ "_" ++ title⟩ : SpecItem) ::
        bulletSpecs title (i + 1) rest ++ bulletSpecs title (i + (b :: rest).length) ys
    rw [show i + (b :: rest).length = i + 1 + rest.length from by simp; omega]
    rfl

theorem mem_bulletSpecs_text (title : String) :
    ∀ (i : Nat) (bs : List String) (s : SpecItem), s ∈ bulletSpecs title i bs → s.text ∈ bs := by
  intro i bs
  induction bs generalizing i with
  | nil => intro s hs; simp [bulletSpecs] at hs
  | cons b rest ih =>
    intro s hs
    simp only [bulletSpecs, List.mem_cons] at hs
    rcases hs with rfl | hs
    · exact List.mem_cons_self _ _
    · exact List.mem_cons_of_mem _ (ih _ _ hs)

theorem runSlides_err (genImage : String → Except String String)
    (saveImage : String → String → Except String String) :
    ∀ (specs1 : List SpecItem) (s2 : SpecItem) (rest : List SpecItem) (e : String),
      (∀ s ∈ specs1, ∃ u su, genImage s.text = Except.ok u ∧ saveImage u s.name = Except.ok su) →
      genImage s2.text = Except.error e →
      (runSlides genImage saveImage (specs1 ++ s2 :: rest)).2.2 = some e := by
  intro specs1
  induction specs1 with
  | nil =>
    intro s2 rest e _ hf
    simp [runSlides, hf]
  | cons s ss ih =>
    intro s2 rest e hall hf
    obtain ⟨u, su, hg, hs⟩ := hall s (List.mem_cons_self s ss)
    simp only [List.cons_append, runSlides, hg, hs]
    exact ih s2 rest e (fun s' hs' => hall s' (List.mem_cons_of_mem s hs')) hf

/-- Claim C1: if image synthesis fails on a bullet slide (a slide with index
`k > 0` — the title slide, slide 0, already succeeded), the pipeline aborts
immediately: no story `documentHtml` is generated, no `publicUrl` is produced,
no story-document storage write occurs (no partial story is persisted), and
the error reaches the caller wrapped with stage context
(`"Failed to generate infographic: "` inside `"Error generating webstory: "`). -/
theorem pipeline_atomic_on_synthesis_failure
    (post : String → Except String ApiResponse)
    (saveImage : String → String → Except String String)
    (putObject : String → String → Except String Unit)
    (cfg : StorageCfg) (ts title : String) (raws : List String)
    (pre : List String) (bfail : String) (bsTail : List String) (msg : String)
    (hT : title ≠ "")
    (hbul : collectBullets raws = pre ++ bfail :: bsTail)
    (hTitleOk : ∃ u, generate_infographic post title = Except.ok u)
    (hSave : ∀ u n, ∃ su, saveImage u n = Except.ok su)
    (hPreOk : ∀ b ∈ pre, ∃ u, generate_infographic post b = Except.ok u)
    (hFail : post (buildInfographicPrompt bfail) = Except.error msg) :
    (runPipeline (generate_infographic post) saveImage putObject cfg ts title
      raws).documentHtml = none ∧
    (runPipeline (generate_infographic post) saveImage putObject cfg ts title
      raws).publicUrl = none ∧
    (runPipeline (generate_infographic post) saveImage putObject cfg ts title
      raws).storyWrites = [] ∧
    (runPipeline (generate_infographic post) saveImage putObject cfg ts title
      raws).errorMsg =
      some ("Error generating webstory: Failed to generate infographic: " ++ msg) := by
  have hbne : (collectBullets raws).isEmpty = false := by
    rw [hbul]
    cases pre <;> rfl
  have hfail' : generate_infographic post bfail =
      Except.error ("Failed to generate infographic: " ++ msg) := by
    unfold generate_infographic
    rw [hFail]
  have hspec : slideSpecs title (collectBullets raws) =
      ((⟨"title", title, "title_" ++ title⟩ : SpecItem) :: bulletSpecs title 0 pre) ++
        (⟨"bullet", bfail, "bullet_" ++ toString pre.length ++ "_" ++ title⟩ : SpecItem) ::
          bulletSpecs title (pre.length + 1) bsTail := by
    show (⟨"title", title, "title_" ++ title⟩ : SpecItem) ::
        bulletSpecs title 0 (collectBullets raws) = _
    rw [hbul, bulletSpecs_append title 0 pre (bfail :: bsTail)]
    show (⟨"title", title, "title_" ++ title⟩ : SpecItem) ::
        (bulletSpecs title 0 pre ++
          (⟨"bullet", bfail, "bullet_" ++ toString (0 + pre.length) ++ "_" ++ title⟩ : SpecItem) ::
            bulletSpecs title (0 + pre.length + 1) bsTail) = _
    rw [show 0 + pre.length = pre.length from by omega]
    rfl
  have herr : (runSlides (generate_infographic post) saveImage
      (slideSpecs title (collectBullets raws))).2.2 =
      some ("Failed to generate infographic: " ++ msg) := by
    rw [hspec]
    apply runSlides_err
    · intro s hs
      rcases List.mem_cons.mp hs with rfl | hs'
      · obtain ⟨u, hu⟩ := hTitleOk
        obtain ⟨su, hsu⟩ := hSave u ("title_" ++ title)
        exact ⟨u, su, hu, hsu⟩
      · obtain ⟨u, hu⟩ := hPreOk s.text (mem_bulletSpecs_text title 0 pre s hs')
        obtain ⟨su, hsu⟩ := hSave u s.name
        exact ⟨u, su, hu, hsu⟩
    · exact hfail'
  have hwrap : "Error generating webstory: " ++ ("Failed to generate infographic: " ++ msg) =
      "Error generating webstory: Failed to generate infographic: " ++ msg := by
    rw [← String.append_assoc]
    rfl
  refine ⟨?_, ?_, ?_, ?_⟩ <;>
    simp only [runPipeline, if_neg hT, hbne, Bool.false_eq_true, if_false, herr]
  rw [hwrap]

set_option maxRecDepth 10000 in
/-- Witness for C1: title `"T"`, bullets `["a", "b"]`, synthesis failing
exactly on the prompt templated from `"b"`. -/
theorem pipeline_atomic_on_synthesis_failure_witness :
    (runPipeline (generate_infographic witPostFail) witSaveOk witPutOk witCfg "20250101120000"
      "T" ["a", "b"]).documentHtml = none ∧
    (runPipeline (generate_infographic witPostFail) witSaveOk witPutOk witCfg "20250101120000"
      "T" ["a", "b"]).publicUrl = none ∧
    (runPipeline (generate_infographic witPostFail) witSaveOk witPutOk witCfg "20250101120000"
      "T" ["a", "b"]).storyWrites = [] ∧
    (runPipeline (generate_infographic witPostFail) witSaveOk witPutOk witCfg "20250101120000"
      "T" ["a", "b"]).errorMsg =
      some ("Error generating webstory: Failed to generate infographic: " ++ "boom") :=
  pipeline_atomic_on_synthesis_failure witPostFail witSaveOk witPutOk witCfg "20250101120000"
    "T" ["a", "b"] ["a"] "b" [] "boom" (by decide) (by decide) ⟨"u", by rfl⟩
    (fun u n => ⟨"s3_" ++ n, rfl⟩)
    (by
      intro b hb
      have hba : b = "a" := by simpa using hb
      subst hba
      exact ⟨"u", by rfl⟩)
    (by rfl)

end Webstory
